import Mathlib

/-!
Shallow embedding of `src/script.py` (Veracode audit-report exporter).

Dates are modelled as day numbers (`Nat`): the script only compares dates,
adds day deltas (`datetime.timedelta(days=n)` becomes `+ n`) and formats
them, so an injective day count is a faithful carrier.  Network calls are
modelled by injected oracles (`submit`, `fetch`): the script's only use of
the network is the response bodies these return.  Fallible code returns
`Except`; the Python exceptions become explicit error values.
-/

/-- The `MAX_WINDOW_DAYS` constant of `script.py`. -/
def MAX_WINDOW_DAYS : Nat := 180

/-- Loop body of `date_iteration_windows` (`script.py` lines 54-61):
`while current <= end_date: window_end = min(current + (MAX_WINDOW_DAYS-1), end_date);
yield (current, window_end); current = window_end + 1`. -/
def windowsFrom (current end_date : Nat) : List (Nat × Nat) :=
  if _h : current ≤ end_date then
    let window_end := min (current + (MAX_WINDOW_DAYS - 1)) end_date
    (current, window_end) :: windowsFrom (window_end + 1) end_date
  else
    []
termination_by end_date + 1 - current
decreasing_by
  have : current ≤ window_end := le_min (Nat.le_add_right _ _) _h
  omega

/-- The generator `date_iteration_windows(start_date, end_date)` of `script.py`,
with the generator materialised as the list of yielded pairs. -/
def date_iteration_windows (start_date end_date : Nat) : List (Nat × Nat) :=
  windowsFrom start_date end_date

/-- The JSON payload built by `build_audit_payload`: a fixed `report_type`,
a start date, and an optional end date (the Python dict key is present
exactly when the `Option` is `some`).  Dates stay day numbers; `strftime`
is the identity of the model. -/
structure AuditPayload where
  report_type : String
  start_date : Nat
  end_date : Option Nat
deriving Repr, DecidableEq

/-- The function `build_audit_payload(window_start, window_end)` of `script.py`
(lines 64-73): the `end_date` key is added only when
`window_end > window_start`. -/
def build_audit_payload (window_start window_end : Nat) : AuditPayload :=
  { report_type := "AUDIT"
    start_date := window_start
    end_date := if window_end > window_start then some window_end else none }

/-- Parsed body of the submission response as `request_report` reads it:
the top-level `"id"` field and the nested `"_embedded"."id"` field, each
absent (`none`) or a string (possibly empty, which Python treats as falsy);
`raw` stands for the full response body that the error message dumps. -/
structure SubmitBody where
  id : Option String
  embedded_id : Option String
  raw : String
deriving Repr, DecidableEq

/-- Python truthiness of an optional string: `None` and `""` are falsy. -/
def truthyStr : Option String → Bool
  | none => false
  | some s => s ≠ ""

/-- Python `a or b` on optional strings. -/
def pyOr (a b : Option String) : Option String :=
  if truthyStr a then a else b

/-- Identifier extraction of `request_report` (`script.py` lines 86-94):
`report_id = data.get("id") or data.get("_embedded", {}).get("id")`;
`if not report_id: raise RuntimeError(... json.dumps(data))`.  The error
value carries the whole parsed body, as the exception message does. -/
def request_report_id (data : SubmitBody) : Except SubmitBody String :=
  match pyOr data.id data.embedded_id with
  | none => .error data
  | some s => if s = "" then .error data else .ok s

/-- Parsed body of one status fetch as `wait_for_report` reads it:
`status = data.get("_embedded", {}).get("status")` (absent and JSON `null`
both give `none`); `payload` stands for the rest of the body, returned
unchanged on completion and dumped into error messages. -/
structure JsonBody where
  status : Option String
  payload : String
deriving Repr, DecidableEq

/-- Outcome of `wait_for_report`: normal return of the fetched body,
the `RuntimeError` on an unexpected status (carrying the status and the
raw body), or the `TimeoutError` (whose message names the report id and
the poll count). -/
inductive PollOutcome where
  | completed (data : JsonBody)
  | unexpectedStatus (report_id : String) (status : Option String) (data : JsonBody)
  | timedOut (report_id : String) (max_polls : Int)
deriving Repr, DecidableEq

/-- The in-progress statuses of `wait_for_report`:
`status in ("SUBMITTED", "PROCESSING", None)`. -/
def inProgressStatus (status : Option String) : Prop :=
  status = some "SUBMITTED" ∨ status = some "PROCESSING" ∨ status = none

instance (status : Option String) : Decidable (inProgressStatus status) := by
  unfold inProgressStatus
  infer_instance

/-- The `for attempt in range(1, max_polls + 1)` loop of `wait_for_report`
(`script.py` lines 108-129), entered at a given `attempt`.  `fetch n` is the
body returned by `get_report_once` on the n-th attempt.  Besides the
outcome it counts the status fetches performed and the `time.sleep`
calls made from this point on. -/
def pollLoop (fetch : Nat → JsonBody) (report_id : String) (max_polls : Int)
    (attempt : Nat) : PollOutcome × Nat × Nat :=
  if _h : max_polls < (attempt : Int) then
    (.timedOut report_id max_polls, 0, 0)
  else
    let data := fetch attempt
    let status := data.status
    if status = some "COMPLETED" then
      (.completed data, 1, 0)
    else if inProgressStatus status then
      let rest := pollLoop fetch report_id max_polls (attempt + 1)
      (rest.1, rest.2.1 + 1, rest.2.2 + 1)
    else
      (.unexpectedStatus report_id status data, 1, 0)
termination_by (max_polls + 1 - (attempt : Int)).toNat
decreasing_by
  omega

/-- The function `wait_for_report(session, report_id, poll_interval, max_polls)` of
`script.py`: the loop starts at attempt 1.  Returns the outcome together
with the number of status fetches and the number of poll-interval sleeps. -/
def wait_for_report (fetch : Nat → JsonBody) (report_id : String)
    (max_polls : Int) : PollOutcome × Nat × Nat :=
  pollLoop fetch report_id max_polls 1

/-- The per-window record appended by `fetch_audit_window` and serialised by
`main`: `{"window_start": start_str, "window_end": end_str, "report": data}`. -/
structure WindowOutcome where
  window_start : Nat
  window_end : Nat
  report : JsonBody
deriving Repr, DecidableEq

/-- The fatal errors of a run, one constructor per Python exception site:
`ValueError` of `main`, `RuntimeError` of `request_report`, `RuntimeError`
of `wait_for_report`, `TimeoutError` of `wait_for_report`. -/
inductive RunError where
  | validationErr (msg : String)
  | requestErr (data : SubmitBody)
  | statusErr (report_id : String) (status : Option String) (data : JsonBody)
  | timeoutErr (report_id : String) (max_polls : Int)
deriving Repr, DecidableEq

/-- The function `fetch_audit_window` of `script.py` (lines 132-157): builds the payload,
takes `start_str = payload["start_date"]` and
`end_str = payload.get("end_date", start_str)`, submits the request (the
oracle `submit` gives the parsed submission response for a payload),
polls (the oracle `poll id n` gives the body of the n-th status fetch for
report `id`), and packages the window outcome. -/
def fetch_audit_window (submit : AuditPayload → SubmitBody)
    (poll : String → Nat → JsonBody) (max_polls : Int)
    (window_start window_end : Nat) : Except RunError WindowOutcome :=
  let payload := build_audit_payload window_start window_end
  let start_str := payload.start_date
  let end_str := payload.end_date.getD start_str
  match request_report_id (submit payload) with
  | .error data => Except.error (RunError.requestErr data)
  | .ok report_id =>
    match wait_for_report (poll report_id) report_id max_polls with
    | (.completed data, _, _) =>
        Except.ok { window_start := start_str, window_end := end_str, report := data }
    | (.unexpectedStatus rid status data, _, _) =>
        Except.error (RunError.statusErr rid status data)
    | (.timedOut rid mp, _, _) => Except.error (RunError.timeoutErr rid mp)

/-- The window loop of `main` (`script.py` lines 174-184): processes the
windows strictly in order, appending each outcome, and aborts the whole run
on the first failing window. -/
def run_windows (submit : AuditPayload → SubmitBody)
    (poll : String → Nat → JsonBody) (max_polls : Int) :
    List (Nat × Nat) → Except RunError (List WindowOutcome)
  | [] => Except.ok []
  | w :: rest =>
    match fetch_audit_window submit poll max_polls w.1 w.2 with
    | .error e => Except.error e
    | .ok o =>
      match run_windows submit poll max_polls rest with
      | .error e => Except.error e
      | .ok os => Except.ok (o :: os)

/-- The function `main` of `script.py` (lines 160-191), with argument parsing done:
`start_arg` is the parsed `--start-date`, `end_arg` the parsed `--end-date`
(defaulted to `today` when unset).  Validates the range, walks the windows
in order accumulating outcomes, and on success produces the output file
name `veracode_audit_<start>_to_<end>.json` together with the ordered list
`all_windows` written into it. -/
def main_run (submit : AuditPayload → SubmitBody) (poll : String → Nat → JsonBody)
    (max_polls : Int) (start_arg : Nat) (end_arg : Option Nat) (today : Nat) :
    Except RunError (String × List WindowOutcome) :=
  let start_date := start_arg
  let end_date := end_arg.getD today
  if start_date > end_date then
    Except.error (RunError.validationErr "start-date must be on or before end-date")
  else
    match run_windows submit poll max_polls
        (date_iteration_windows start_date end_date) with
    | .error e => Except.error e
    | .ok all_windows =>
        Except.ok ("veracode_audit_" ++ toString start_date ++ "_to_" ++
          toString end_date ++ ".json", all_windows)

/-! ### Lemmas about the windower -/

theorem windowsFrom_eq_nil (c e : Nat) (h : ¬ c ≤ e) : windowsFrom c e = [] := by
  unfold windowsFrom
  simp [h]

theorem windowsFrom_eq_cons (c e : Nat) (h : c ≤ e) :
    windowsFrom c e =
      (c, min (c + (MAX_WINDOW_DAYS - 1)) e) ::
        windowsFrom (min (c + (MAX_WINDOW_DAYS - 1)) e + 1) e := by
  rw [windowsFrom]
  simp [h]

theorem windowsFrom_mem (c e : Nat) :
    ∀ w ∈ windowsFrom c e, c ≤ w.1 ∧ w.1 ≤ w.2 ∧ w.2 ≤ e ∧ w.2 + 1 ≤ w.1 + MAX_WINDOW_DAYS := by
  induction c, e using windowsFrom.induct with
  | case1 c e h we ih =>
      rw [windowsFrom_eq_cons c e h]
      intro w hw
      rcases List.mem_cons.mp hw with hw | hw
      · subst hw
        refine ⟨le_refl _, le_min (by omega) h, min_le_right _ _, ?_⟩
        have := min_le_left (c + (MAX_WINDOW_DAYS - 1)) e
        have : 1 ≤ MAX_WINDOW_DAYS := by decide
        omega
      · have := ih w hw
        have hm := le_min (Nat.le_add_right c (MAX_WINDOW_DAYS - 1)) h
        omega
  | case2 c e h =>
      rw [windowsFrom_eq_nil c e h]
      intro w hw
      simp at hw

theorem windowsFrom_head (c e : Nat) (h : c ≤ e) :
    (windowsFrom c e).head? = some (c, min (c + (MAX_WINDOW_DAYS - 1)) e) := by
  rw [windowsFrom_eq_cons c e h]
  rfl

theorem windowsFrom_getLast (c e : Nat) (h : c ≤ e) :
    (windowsFrom c e).getLast?.map Prod.snd = some e := by
  induction c, e using windowsFrom.induct with
  | case1 c e h1 we ih =>
      rw [windowsFrom_eq_cons c e h1]
      by_cases h2 : min (c + (MAX_WINDOW_DAYS - 1)) e + 1 ≤ e
      · rw [windowsFrom_eq_cons _ e h2, List.getLast?_cons_cons,
          ← windowsFrom_eq_cons _ e h2]
        exact ih h2
      · have hmin : min (c + (MAX_WINDOW_DAYS - 1)) e = e := by
          have := min_le_right (c + (MAX_WINDOW_DAYS - 1)) e
          omega
        rw [windowsFrom_eq_nil _ e h2]
        simp [hmin]
  | case2 c e h1 => exact absurd h h1

theorem windowsFrom_chain (c e : Nat) :
    List.Chain' (fun a b => b.1 = a.2 + 1) (windowsFrom c e) := by
  induction c, e using windowsFrom.induct with
  | case1 c e h we ih =>
      rw [windowsFrom_eq_cons c e h]
      refine List.chain'_cons'.mpr ⟨?_, ih⟩
      intro y hy
      by_cases h2 : min (c + (MAX_WINDOW_DAYS - 1)) e + 1 ≤ e
      · rw [windowsFrom_head _ e h2] at hy
        cases hy
        rfl
      · rw [windowsFrom_eq_nil _ e h2] at hy
        simp at hy
  | case2 c e h =>
      rw [windowsFrom_eq_nil c e h]
      exact List.chain'_nil

theorem windowsFrom_pairwise (c e : Nat) :
    List.Pairwise (fun a b => a.2 < b.1) (windowsFrom c e) := by
  induction c, e using windowsFrom.induct with
  | case1 c e h we ih =>
      rw [windowsFrom_eq_cons c e h]
      refine List.pairwise_cons.mpr ⟨?_, ih⟩
      intro w hw
      have := (windowsFrom_mem _ e w hw).1
      omega
  | case2 c e h =>
      rw [windowsFrom_eq_nil c e h]
      exact List.Pairwise.nil

theorem windowsFrom_cover (c e : Nat) :
    ∀ d, c ≤ d → d ≤ e → ∃ w ∈ windowsFrom c e, w.1 ≤ d ∧ d ≤ w.2 := by
  induction c, e using windowsFrom.induct with
  | case1 c e h we ih =>
      intro d hcd hde
      rw [windowsFrom_eq_cons c e h]
      by_cases hd : d ≤ min (c + (MAX_WINDOW_DAYS - 1)) e
      · exact ⟨(c, min (c + (MAX_WINDOW_DAYS - 1)) e), List.mem_cons_self _ _, hcd, hd⟩
      · obtain ⟨w, hw, hw1, hw2⟩ := ih d (by omega) hde
        exact ⟨w, List.mem_cons_of_mem _ hw, hw1, hw2⟩
  | case2 c e h =>
      intro d hcd hde
      omega

/-- C1: for every start ≤ end, the windows of `date_iteration_windows` start
at `start`, end at `end`, have inclusive length at most `MAX_WINDOW_DAYS`,
are contiguous (each start is the previous end plus one day), strictly
ordered and non-overlapping, and a day lies in `[start, end]` exactly when
some window contains it. -/
theorem date_iteration_windows_spec (start_date end_date : Nat)
    (h : start_date ≤ end_date) :
    ((date_iteration_windows start_date end_date).head?.map Prod.fst = some start_date) ∧
    ((date_iteration_windows start_date end_date).getLast?.map Prod.snd = some end_date) ∧
    (∀ w ∈ date_iteration_windows start_date end_date,
        w.1 ≤ w.2 ∧ w.2 + 1 ≤ w.1 + MAX_WINDOW_DAYS) ∧
    List.Chain' (fun a b => b.1 = a.2 + 1) (date_iteration_windows start_date end_date) ∧
    List.Pairwise (fun a b => a.2 < b.1) (date_iteration_windows start_date end_date) ∧
    (∀ d, (start_date ≤ d ∧ d ≤ end_date) ↔
        ∃ w ∈ date_iteration_windows start_date end_date, w.1 ≤ d ∧ d ≤ w.2) := by
  unfold date_iteration_windows
  refine ⟨?_, windowsFrom_getLast _ _ h, ?_, windowsFrom_chain _ _,
    windowsFrom_pairwise _ _, ?_⟩
  · rw [windowsFrom_head _ _ h]
    rfl
  · intro w hw
    have := windowsFrom_mem start_date end_date w hw
    omega
  · intro d
    constructor
    · intro ⟨h1, h2⟩
      exact windowsFrom_cover _ _ d h1 h2
    · intro ⟨w, hw, hw1, hw2⟩
      have := windowsFrom_mem start_date end_date w hw
      omega

/-- Witness for C1 at (start, end) = (0, 200). -/
theorem date_iteration_windows_spec_witness :
    ((date_iteration_windows 0 200).head?.map Prod.fst = some 0) ∧
    ((date_iteration_windows 0 200).getLast?.map Prod.snd = some 200) ∧
    (∀ w ∈ date_iteration_windows 0 200,
        w.1 ≤ w.2 ∧ w.2 + 1 ≤ w.1 + MAX_WINDOW_DAYS) ∧
    List.Chain' (fun a b => b.1 = a.2 + 1) (date_iteration_windows 0 200) ∧
    List.Pairwise (fun a b => a.2 < b.1) (date_iteration_windows 0 200) ∧
    (∀ d, (0 ≤ d ∧ d ≤ 200) ↔
        ∃ w ∈ date_iteration_windows 0 200, w.1 ≤ d ∧ d ≤ w.2) :=
  date_iteration_windows_spec 0 200 (by decide)

/-- C7: a single-day range gives the one window `(d, d)`; a range of exactly
`MAX_WINDOW_DAYS` inclusive days gives one window; a range one day longer
gives exactly two windows. -/
theorem date_iteration_windows_boundaries :
    (∀ d : Nat, date_iteration_windows d d = [(d, d)]) ∧
    (∀ s : Nat, date_iteration_windows s (s + (MAX_WINDOW_DAYS - 1)) =
        [(s, s + (MAX_WINDOW_DAYS - 1))]) ∧
    (∀ s : Nat, date_iteration_windows s (s + MAX_WINDOW_DAYS) =
        [(s, s + (MAX_WINDOW_DAYS - 1)),
         (s + MAX_WINDOW_DAYS, s + MAX_WINDOW_DAYS)]) := by
  refine ⟨?_, ?_, ?_⟩
  · intro d
    unfold date_iteration_windows
    rw [windowsFrom_eq_cons d d (le_refl d)]
    have hmin : min (d + (MAX_WINDOW_DAYS - 1)) d = d := min_eq_right (by omega)
    rw [hmin, windowsFrom_eq_nil (d + 1) d (by omega)]
  · intro s
    unfold date_iteration_windows
    rw [windowsFrom_eq_cons s _ (by omega)]
    have hmin : min (s + (MAX_WINDOW_DAYS - 1)) (s + (MAX_WINDOW_DAYS - 1)) =
        s + (MAX_WINDOW_DAYS - 1) := min_self _
    rw [hmin, windowsFrom_eq_nil _ _ (by omega)]
  · intro s
    unfold date_iteration_windows
    rw [windowsFrom_eq_cons s _ (by omega)]
    have hmin : min (s + (MAX_WINDOW_DAYS - 1)) (s + MAX_WINDOW_DAYS) =
        s + (MAX_WINDOW_DAYS - 1) := min_eq_left (by omega)
    rw [hmin]
    have h2 : s + (MAX_WINDOW_DAYS - 1) + 1 = s + MAX_WINDOW_DAYS := by
      have : 1 ≤ MAX_WINDOW_DAYS := by decide
      omega
    rw [h2, windowsFrom_eq_cons _ _ (le_refl _)]
    have hmin2 : min (s + MAX_WINDOW_DAYS + (MAX_WINDOW_DAYS - 1)) (s + MAX_WINDOW_DAYS) =
        s + MAX_WINDOW_DAYS := min_eq_right (by omega)
    rw [hmin2, windowsFrom_eq_nil _ _ (by omega)]

/-! ### Lemmas about the poll loop -/

theorem pollLoop_past_budget (fetch : Nat → JsonBody) (report_id : String)
    (max_polls : Int) (attempt : Nat) (h : max_polls < (attempt : Int)) :
    pollLoop fetch report_id max_polls attempt =
      (.timedOut report_id max_polls, 0, 0) := by
  unfold pollLoop
  simp [h]

theorem pollLoop_completed (fetch : Nat → JsonBody) (report_id : String)
    (max_polls : Int) (attempt : Nat) (h : ¬ max_polls < (attempt : Int))
    (hc : (fetch attempt).status = some "COMPLETED") :
    pollLoop fetch report_id max_polls attempt =
      (.completed (fetch attempt), 1, 0) := by
  unfold pollLoop
  simp [h, hc]

theorem pollLoop_continue (fetch : Nat → JsonBody) (report_id : String)
    (max_polls : Int) (attempt : Nat) (h : ¬ max_polls < (attempt : Int))
    (hp : inProgressStatus (fetch attempt).status) :
    pollLoop fetch report_id max_polls attempt =
      ((pollLoop fetch report_id max_polls (attempt + 1)).1,
       (pollLoop fetch report_id max_polls (attempt + 1)).2.1 + 1,
       (pollLoop fetch report_id max_polls (attempt + 1)).2.2 + 1) := by
  have hnc : ¬ (fetch attempt).status = some "COMPLETED" := by
    rcases hp with h1 | h1 | h1 <;> simp [h1]
  conv_lhs => rw [pollLoop]
  simp [h, hnc, hp]

theorem pollLoop_unexpected (fetch : Nat → JsonBody) (report_id : String)
    (max_polls : Int) (attempt : Nat) (h : ¬ max_polls < (attempt : Int))
    (hnc : ¬ (fetch attempt).status = some "COMPLETED")
    (hnp : ¬ inProgressStatus (fetch attempt).status) :
    pollLoop fetch report_id max_polls attempt =
      (.unexpectedStatus report_id (fetch attempt).status (fetch attempt), 1, 0) := by
  unfold pollLoop
  simp [h, hnc, hnp]

theorem pollLoop_all_in_progress (fetch : Nat → JsonBody) (report_id : String)
    (max_polls : Int) :
    ∀ (n attempt : Nat), (max_polls + 1 - (attempt : Int)).toNat = n →
    (∀ i : Nat, attempt ≤ i → (i : Int) ≤ max_polls → inProgressStatus (fetch i).status) →
    pollLoop fetch report_id max_polls attempt =
      (.timedOut report_id max_polls, n, n) := by
  intro n
  induction n with
  | zero =>
      intro attempt hn _
      exact pollLoop_past_budget fetch report_id max_polls attempt (by omega)
  | succ n ih =>
      intro attempt hn hall
      have hle : ¬ max_polls < (attempt : Int) := by omega
      have hp := hall attempt (le_refl _) (by omega)
      rw [pollLoop_continue fetch report_id max_polls attempt hle hp,
        ih (attempt + 1) (by omega) (fun i hi hmp => hall i (by omega) hmp)]

/-- C2: when every one of the `max_polls` status fetches reports SUBMITTED,
PROCESSING or a null/absent status, `wait_for_report` performs exactly
`max_polls` fetches (and as many sleeps) and ends in the timeout error
naming the report id and the poll count. -/
theorem wait_for_report_timeout (fetch : Nat → JsonBody) (report_id : String)
    (max_polls : Int) (hpos : 0 < max_polls)
    (hall : ∀ i : Nat, 1 ≤ i → (i : Int) ≤ max_polls →
      inProgressStatus (fetch i).status) :
    wait_for_report fetch report_id max_polls =
      (.timedOut report_id max_polls, max_polls.toNat, max_polls.toNat) := by
  unfold wait_for_report
  exact pollLoop_all_in_progress fetch report_id max_polls max_polls.toNat 1
    (by omega) hall

/-- Witness for C2: three PROCESSING fetches against a budget of 3 polls. -/
theorem wait_for_report_timeout_witness :
    wait_for_report (fun _ => { status := some "PROCESSING", payload := "" }) "r1" 3 =
      (.timedOut "r1" 3, (3 : Int).toNat, (3 : Int).toNat) :=
  wait_for_report_timeout _ "r1" 3 (by decide)
    (fun _ _ _ => Or.inr (Or.inl rfl))

/-- C3: within the poll budget, an in-progress status (SUBMITTED,
PROCESSING or null/absent) makes the loop continue with the next attempt
after one more fetch and one more sleep, while any other non-COMPLETED
status stops the loop at once — exactly one fetch from this attempt on, no
sleep — with the unexpected-status error carrying the status and the raw
body. -/
theorem wait_for_report_step (fetch : Nat → JsonBody) (report_id : String)
    (max_polls : Int) (attempt : Nat) (hin : (attempt : Int) ≤ max_polls) :
    (inProgressStatus (fetch attempt).status →
      pollLoop fetch report_id max_polls attempt =
        ((pollLoop fetch report_id max_polls (attempt + 1)).1,
         (pollLoop fetch report_id max_polls (attempt + 1)).2.1 + 1,
         (pollLoop fetch report_id max_polls (attempt + 1)).2.2 + 1)) ∧
    (∀ st : String, (fetch attempt).status = some st → st ≠ "COMPLETED" →
      ¬ inProgressStatus (some st) →
      pollLoop fetch report_id max_polls attempt =
        (.unexpectedStatus report_id (some st) (fetch attempt), 1, 0)) := by
  constructor
  · intro hp
    exact pollLoop_continue fetch report_id max_polls attempt (by omega) hp
  · intro st hst hnc hnp
    have := pollLoop_unexpected fetch report_id max_polls attempt (by omega)
      (by simp [hst, hnc]) (by simp [hst]; exact hnp)
    rw [this, hst]

/-- Witness for C3: a FAILED status at attempt 1 of a 2-poll budget stops
the loop with the unexpected-status error after a single fetch. -/
theorem wait_for_report_step_witness :
    pollLoop (fun _ => { status := some "FAILED", payload := "b" }) "r1" 2 1 =
      (.unexpectedStatus "r1" (some "FAILED")
        { status := some "FAILED", payload := "b" }, 1, 0) :=
  (wait_for_report_step (fun _ => { status := some "FAILED", payload := "b" })
      "r1" 2 1 (by decide)).2 "FAILED" rfl (by decide) (by decide)

/-- C8: when the first status fetch reports COMPLETED, `wait_for_report`
returns that fetched body unchanged after exactly one fetch and no sleep. -/
theorem wait_for_report_completed_first (fetch : Nat → JsonBody)
    (report_id : String) (max_polls : Int) (hpos : 1 ≤ max_polls)
    (hc : (fetch 1).status = some "COMPLETED") :
    wait_for_report fetch report_id max_polls = (.completed (fetch 1), 1, 0) := by
  unfold wait_for_report
  exact pollLoop_completed fetch report_id max_polls 1 (by omega) hc

/-- Witness for C8 at a concrete fetch oracle and budget 40. -/
theorem wait_for_report_completed_first_witness :
    wait_for_report (fun _ => { status := some "COMPLETED", payload := "data" })
        "r9" 40 =
      (.completed { status := some "COMPLETED", payload := "data" }, 1, 0) :=
  wait_for_report_completed_first _ "r9" 40 (by decide) rfl

/-- C10: a non-positive poll budget makes `wait_for_report` time out at
once, with zero status fetches and zero sleeps. -/
theorem wait_for_report_nonpositive (fetch : Nat → JsonBody)
    (report_id : String) (max_polls : Int) (h : max_polls ≤ 0) :
    wait_for_report fetch report_id max_polls =
      (.timedOut report_id max_polls, 0, 0) := by
  unfold wait_for_report
  exact pollLoop_past_budget fetch report_id max_polls 1 (by omega)

/-- Witness for C10 at budget 0 and at budget -2. -/
theorem wait_for_report_nonpositive_witness :
    wait_for_report (fun _ => { status := some "COMPLETED", payload := "" })
        "r1" 0 = (.timedOut "r1" 0, 0, 0) :=
  wait_for_report_nonpositive _ "r1" 0 (by decide)

/-- C4: `request_report` extracts the identifier by an explicit fallback:
the top-level `id` when it yields one (is present and non-empty), else the
nested `_embedded.id` when that yields one, else the error carrying the
raw response body. -/
theorem request_report_id_fallback (data : SubmitBody) :
    (∀ s : String, data.id = some s → s ≠ "" →
      request_report_id data = Except.ok s) ∧
    (truthyStr data.id = false →
      ∀ s : String, data.embedded_id = some s → s ≠ "" →
        request_report_id data = Except.ok s) ∧
    (truthyStr data.id = false → truthyStr data.embedded_id = false →
      request_report_id data = Except.error data) := by
  refine ⟨?_, ?_, ?_⟩
  · intro s hs hne
    simp [request_report_id, pyOr, truthyStr, hs, hne]
  · intro ht s hs hne
    simp [request_report_id, pyOr, ht, hs, hne]
  · intro ht hte
    cases he : data.embedded_id with
    | none => simp [request_report_id, pyOr, ht, he]
    | some s =>
        have hs : s = "" := by
          rw [he] at hte
          simpa [truthyStr] using hte
        simp [request_report_id, pyOr, ht, he, hs]

/-- Witness for C4: a blank top-level id falls back to the embedded id. -/
theorem request_report_id_fallback_witness :
    request_report_id { id := some "", embedded_id := some "e7", raw := "raw" } =
      Except.ok "e7" :=
  (request_report_id_fallback
    { id := some "", embedded_id := some "e7", raw := "raw" }).2.1
    (by decide) "e7" rfl (by decide)

/-- C6: the payload always carries report type AUDIT and the window's start
date, and carries the end date exactly when the window ends strictly after
it starts (a single-day window omits it). -/
theorem build_audit_payload_spec (window_start window_end : Nat)
    (h : window_start ≤ window_end) :
    (build_audit_payload window_start window_end).report_type = "AUDIT" ∧
    (build_audit_payload window_start window_end).start_date = window_start ∧
    ((build_audit_payload window_start window_end).end_date.isSome ↔
      window_start < window_end) ∧
    (window_start < window_end →
      (build_audit_payload window_start window_end).end_date = some window_end) := by
  unfold build_audit_payload
  by_cases hlt : window_start < window_end <;> simp [hlt]

/-- Witness for C6 at the windows (3, 3) and, via the theorem, (3, 5). -/
theorem build_audit_payload_spec_witness :
    (build_audit_payload 3 5).report_type = "AUDIT" ∧
    (build_audit_payload 3 5).start_date = 3 ∧
    ((build_audit_payload 3 5).end_date.isSome ↔ 3 < 5) ∧
    (3 < 5 → (build_audit_payload 3 5).end_date = some 5) :=
  build_audit_payload_spec 3 5 (by decide)

/-- C5: a resolved start date strictly after the resolved end date makes
the run fail with the validation error, whatever the network collaborators
would answer — the result does not depend on `submit` or `poll`, so no
request and no poll is ever made. -/
theorem main_run_validation (submit : AuditPayload → SubmitBody)
    (poll : String → Nat → JsonBody) (max_polls : Int)
    (start_arg : Nat) (end_arg : Option Nat) (today : Nat)
    (h : end_arg.getD today < start_arg) :
    main_run submit poll max_polls start_arg end_arg today =
      Except.error (RunError.validationErr
        "start-date must be on or before end-date") := by
  unfold main_run
  simp [h]

theorem pollLoop_completed_inv (fetch : Nat → JsonBody) (report_id : String)
    (max_polls : Int) :
    ∀ (n attempt : Nat), (max_polls + 1 - (attempt : Int)).toNat = n →
    ∀ d f s, pollLoop fetch report_id max_polls attempt = (.completed d, f, s) →
      d.status = some "COMPLETED" := by
  intro n
  induction n with
  | zero =>
      intro attempt hn d f s h
      rw [pollLoop_past_budget _ _ _ _ (by omega)] at h
      simp at h
  | succ n ih =>
      intro attempt hn d f s h
      have hb : ¬ max_polls < (attempt : Int) := by omega
      by_cases hc : (fetch attempt).status = some "COMPLETED"
      · rw [pollLoop_completed _ _ _ _ hb hc] at h
        injection h with h1 h2
        injection h1 with h1
        rw [← h1]
        exact hc
      · by_cases hp : inProgressStatus (fetch attempt).status
        · rw [pollLoop_continue _ _ _ _ hb hp] at h
          injection h with h1 h2
          exact ih (attempt + 1) (by omega) d _ _ (by rw [← h1])
        · rw [pollLoop_unexpected _ _ _ _ hb hc hp] at h
          simp at h

theorem fetch_audit_window_ok (submit : AuditPayload → SubmitBody)
    (poll : String → Nat → JsonBody) (max_polls : Int)
    (window_start window_end : Nat) (o : WindowOutcome)
    (hle : window_start ≤ window_end)
    (h : fetch_audit_window submit poll max_polls window_start window_end =
      Except.ok o) :
    o.window_start = window_start ∧ o.window_end = window_end ∧
      o.report.status = some "COMPLETED" := by
  cases hrr : request_report_id (submit (build_audit_payload window_start window_end)) with
  | error d =>
      simp [fetch_audit_window, hrr] at h
  | ok rid =>
      rcases hw : wait_for_report (poll rid) rid max_polls with ⟨out, f, s⟩
      cases out with
      | completed data =>
          have hend : (build_audit_payload window_start window_end).end_date.getD
              (build_audit_payload window_start window_end).start_date = window_end := by
            unfold build_audit_payload
            by_cases hlt : window_start < window_end <;> simp [hlt] <;> omega
          simp [fetch_audit_window, hrr, hw] at h
          have hst : data.status = some "COMPLETED" := by
            have := pollLoop_completed_inv (poll rid) rid max_polls
              (max_polls + 1 - 1).toNat 1 rfl data f s
            exact this hw
          rw [← h]
          refine ⟨rfl, ?_, hst⟩
          simpa [build_audit_payload] using hend
      | unexpectedStatus rid2 st data =>
          simp [fetch_audit_window, hrr, hw] at h
      | timedOut rid2 mp =>
          simp [fetch_audit_window, hrr, hw] at h

theorem run_windows_ok (submit : AuditPayload → SubmitBody)
    (poll : String → Nat → JsonBody) (max_polls : Int) :
    ∀ l : List (Nat × Nat), (∀ w ∈ l, w.1 ≤ w.2) →
    ∀ outs : List WindowOutcome,
      run_windows submit poll max_polls l = Except.ok outs →
      outs.map (fun o => (o.window_start, o.window_end)) = l ∧
        ∀ o ∈ outs, o.report.status = some "COMPLETED" := by
  intro l
  induction l with
  | nil =>
      intro _ outs h
      simp [run_windows] at h
      subst h
      simp
  | cons a l ih =>
      obtain ⟨ws, we⟩ := a
      intro hl outs h
      cases hfa : fetch_audit_window submit poll max_polls ws we with
      | error e => simp [run_windows, hfa] at h
      | ok b =>
          cases hml : run_windows submit poll max_polls l with
          | error e => simp [run_windows, hfa, hml] at h
          | ok bs =>
              simp [run_windows, hfa, hml] at h
              obtain ⟨hb1, hb2, hb3⟩ := fetch_audit_window_ok submit poll max_polls
                ws we b (hl (ws, we) (List.mem_cons_self _ _)) hfa
              obtain ⟨ih1, ih2⟩ := ih (fun w hw => hl w (List.mem_cons_of_mem _ hw)) bs hml
              rw [← h]
              constructor
              · simp [List.map_cons, ih1, hb1, hb2]
              · intro o ho
                rcases List.mem_cons.mp ho with ho | ho
                · subst ho
                  exact hb3
                · exact ih2 o ho

/-- C9: a successful run on resolved dates (start, end) names the output
file `veracode_audit_<start>_to_<end>.json` and writes exactly the ordered
per-window outcomes: the outcomes' (window_start, window_end) pairs, in
order, are the windows of `date_iteration_windows`, each with a report
body whose status is COMPLETED. -/
theorem main_run_success (submit : AuditPayload → SubmitBody)
    (poll : String → Nat → JsonBody) (max_polls : Int)
    (start_arg : Nat) (end_arg : Option Nat) (today : Nat)
    (out_file : String) (all_windows : List WindowOutcome)
    (h : main_run submit poll max_polls start_arg end_arg today =
      Except.ok (out_file, all_windows)) :
    out_file = "veracode_audit_" ++ toString start_arg ++ "_to_" ++
      toString (end_arg.getD today) ++ ".json" ∧
    all_windows.map (fun o => (o.window_start, o.window_end)) =
      date_iteration_windows start_arg (end_arg.getD today) ∧
    ∀ o ∈ all_windows, o.report.status = some "COMPLETED" := by
  by_cases hv : end_arg.getD today < start_arg
  · rw [main_run_validation submit poll max_polls start_arg end_arg today hv] at h
    simp at h
  · cases hm : run_windows submit poll max_polls
        (date_iteration_windows start_arg (end_arg.getD today)) with
    | error e =>
        simp [main_run, hv, hm] at h
    | ok outs =>
        simp [main_run, hv, hm] at h
        have hmem : ∀ w ∈ date_iteration_windows start_arg (end_arg.getD today),
            w.1 ≤ w.2 :=
          fun w hw => (windowsFrom_mem _ _ w hw).2.1
        obtain ⟨hmap, hst⟩ := run_windows_ok submit poll max_polls _ hmem outs hm
        obtain ⟨h1, h2⟩ := h
        subst h1
        subst h2
        exact ⟨rfl, hmap, hst⟩

/-- Witness for C9: a one-day run (start = end = 0, today = 99) against
collaborators that return id r1 and an immediately COMPLETED body. -/
theorem main_run_success_witness :
    "veracode_audit_0_to_0.json" = "veracode_audit_" ++ toString 0 ++ "_to_" ++
      toString ((some 0).getD 99) ++ ".json" ∧
    ([({ window_start := 0,
         window_end := 0,
         report := { status := some "COMPLETED", payload := "body" } } :
        WindowOutcome)].map (fun o => (o.window_start, o.window_end))) =
      date_iteration_windows 0 ((some 0).getD 99) ∧
    ∀ o ∈ [({ window_start := 0,
              window_end := 0,
              report := { status := some "COMPLETED", payload := "body" } } :
        WindowOutcome)],
      o.report.status = some "COMPLETED" :=
  main_run_success (fun _ => { id := some "r1", embedded_id := none, raw := "" })
    (fun _ _ => { status := some "COMPLETED", payload := "body" }) 1 0 (some 0) 99
    "veracode_audit_0_to_0.json"
    [{ window_start := 0,
       window_end := 0,
       report := { status := some "COMPLETED", payload := "body" } }]
    (by
      have hw : date_iteration_windows 0 0 = [(0, 0)] := by
        unfold date_iteration_windows
        rw [windowsFrom_eq_cons 0 0 (le_refl 0)]
        norm_num [MAX_WINDOW_DAYS]
        rw [windowsFrom_eq_nil 1 0 (by omega)]
      have hp : wait_for_report
          (fun _ => ({ status := some "COMPLETED", payload := "body" } : JsonBody))
          "r1" 1 =
          (.completed { status := some "COMPLETED", payload := "body" }, 1, 0) := by
        unfold wait_for_report
        exact pollLoop_completed _ _ _ _ (by decide) rfl
      simp [main_run, hw, run_windows, fetch_audit_window, hp, request_report_id,
        pyOr, truthyStr, build_audit_payload]
      rfl)

/-- Witness for C5: start 5 against end 2. -/
theorem main_run_validation_witness :
    main_run (fun _ => { id := some "r1", embedded_id := none, raw := "" })
        (fun _ _ => { status := some "COMPLETED", payload := "" }) 40 5 (some 2) 0 =
      Except.error (RunError.validationErr
        "start-date must be on or before end-date") :=
  main_run_validation _ _ 40 5 (some 2) 0 (by decide)
